import Mathlib

/-!
# Verification of the broadcast bot (src/bot.py)

A shallow embedding of the Telegram broadcast bot in `src/bot.py`:
the user registry, the admin directory loader, the conversation state
machine driven by `ConversationHandler` (as configured in
`setup_handlers`), and the fan-out broadcast engine
(`broadcast_message`).  User identifiers are natural numbers, media
file identifiers are strings, and the transport's per-recipient
delivery outcome is an oracle `deliver : Nat → SendKind → Bool`
(the Python code wraps each outbound call in `try/except`; the oracle
records whether that call would have raised).
-/

namespace Bot

/-- The attachment kind stored under the `media_type` key of
`context.user_data` (the Python code stores the strings "photo" and
"video"). -/
inductive MediaType
  | photo
  | video
deriving DecidableEq, Repr

/-- Conversation states.  The Python constants are
`CHOOSING, TYPING_TEXT, WAITING_MEDIA, BROADCAST = range(4)`;
`CHOOSING` is never used as a key of the `states` dict.  `idle` stands
for "no active conversation", i.e. `ConversationHandler.END`. -/
inductive ConvState
  | idle
  | typingText
  | waitingMedia
  | broadcast
deriving DecidableEq, Repr

/-- The per-operator scratch data `context.user_data`: the keys
`broadcast_text`, `media_type` and `media` written by `text_input`,
`media_choice` and `receive_media`.  An absent key is `none`. -/
structure UserData where
  broadcast_text : Option String
  media_type : Option MediaType
  media : Option String
deriving DecidableEq, Repr

/-- The state after `context.user_data.clear()`: no keys present. -/
def UserData.empty : UserData := ⟨none, none, none⟩

/-- A per-operator session: the conversation state tracked by
`ConversationHandler` plus the operator's `user_data`. -/
structure Session where
  state : ConvState
  ud : UserData
deriving DecidableEq, Repr

/-- The session of an operator who has never entered the flow. -/
def Session.initial : Session := ⟨ConvState.idle, UserData.empty⟩

/-- An outbound delivery call, one of the three primitives the loop in
`broadcast_message` chooses from: `send_message(user_id, text)`,
`send_photo(user_id, photo=media, caption=text)`, or
`send_video(user_id, video=media, caption=text)`. -/
inductive SendKind
  | sendText (text : String)
  | sendPhoto (photo : Option String) (caption : String)
  | sendVideo (video : Option String) (caption : String)
deriving DecidableEq, Repr

/-- One delivery attempt of a broadcast: the recipient and the call
made for it. -/
structure Attempt where
  recipient : Nat
  kind : SendKind
deriving DecidableEq, Repr

/-- The tally accumulated by `broadcast_message`: the counters
`successful` and `failed`. -/
structure Tally where
  successful : Nat
  failed : Nat
deriving DecidableEq, Repr

/-- The call `broadcast_message` makes for one recipient, chosen by
`media_type` with `text = user_data.get("broadcast_text", "")`,
`media = user_data.get("media", None)`:
`if media_type == "photo": send_photo ... elif media_type == "video":
send_video ... else: send_message`. -/
def sendCall (media_type : Option MediaType) (media : Option String)
    (text : String) : SendKind :=
  match media_type with
  | some MediaType.photo => SendKind.sendPhoto media text
  | some MediaType.video => SendKind.sendVideo media text
  | none => SendKind.sendText text

/-- The delivery call a given `user_data` produces, with the defaults
`broadcast_message` reads: text defaults to `""`, media to `None`. -/
def attemptCall (ud : UserData) : SendKind :=
  sendCall ud.media_type ud.media (ud.broadcast_text.getD "")

/-- The list of delivery attempts made by the `for user_id in users`
loop of `broadcast_message` over a snapshot of the registry (one
attempt per element, in iteration order). -/
def broadcastAttempts (ud : UserData) (snapshot : List Nat) : List Attempt :=
  snapshot.map (fun uid => ⟨uid, attemptCall ud⟩)

/-- One iteration of the loop body of `broadcast_message`: the call for
`uid` is attempted inside `try/except`; success increments
`successful`, any exception is caught and increments `failed`. -/
def broadcastStep (deliver : Nat → SendKind → Bool) (ud : UserData)
    (acc : Tally) (uid : Nat) : Tally :=
  if deliver uid (attemptCall ud) then ⟨acc.successful + 1, acc.failed⟩
  else ⟨acc.successful, acc.failed + 1⟩

/-- The tally produced by the delivery loop of `broadcast_message`,
starting from `successful = 0`, `failed = 0`. -/
def broadcast_tally (ud : UserData) (snapshot : List Nat)
    (deliver : Nat → SendKind → Bool) : Tally :=
  snapshot.foldl (broadcastStep deliver ud) ⟨0, 0⟩

/-- The whole `broadcast_message` handler: runs the delivery loop,
reports the tally, clears `user_data` and returns
`ConversationHandler.END`. -/
def broadcast_message (ud : UserData) (snapshot : List Nat)
    (deliver : Nat → SendKind → Bool) : Tally × UserData × ConvState :=
  (broadcast_tally ud snapshot deliver, UserData.empty, ConvState.idle)

/-- Folding the loop body adds exactly one to one of the two counters
per list element. -/
theorem broadcast_foldl_sum (deliver : Nat → SendKind → Bool)
    (ud : UserData) (snapshot : List Nat) (acc : Tally) :
    (snapshot.foldl (broadcastStep deliver ud) acc).successful
      + (snapshot.foldl (broadcastStep deliver ud) acc).failed
      = acc.successful + acc.failed + snapshot.length := by
  induction snapshot generalizing acc with
  | nil => simp
  | cons uid rest ih =>
    simp only [List.foldl_cons, List.length_cons]
    rw [ih]
    unfold broadcastStep
    split <;> simp <;> omega

/-- The two counters are exactly the number of succeeding and of
failing recipients in the snapshot. -/
theorem broadcast_foldl_filter (deliver : Nat → SendKind → Bool)
    (ud : UserData) (snapshot : List Nat) (acc : Tally) :
    snapshot.foldl (broadcastStep deliver ud) acc
      = ⟨acc.successful
            + (snapshot.filter (fun v => deliver v (attemptCall ud))).length,
         acc.failed
            + (snapshot.filter (fun v => !deliver v (attemptCall ud))).length⟩ := by
  induction snapshot generalizing acc with
  | nil => simp
  | cons uid rest ih =>
    simp only [List.foldl_cons, List.filter_cons]
    rw [ih]
    unfold broadcastStep
    by_cases h : deliver uid (attemptCall ud) = true <;>
      simp [h] <;> omega

/-- The outcome of the attempt to read and parse `admins.json`:
the file may be absent (`FileNotFoundError`), present but not valid
JSON (`json.JSONDecodeError`), or a readable list of ids. -/
inductive FileRead
  | missing
  | corrupt
  | ok (ids : List Nat)
deriving DecidableEq, Repr

/-- The `load_admins` function: a readable file yields its list; a
missing or corrupt file is caught, the file is rewritten as `[]`
(second component: whether the file was recreated), and `[]` is
returned.  In every case the function returns normally, so startup
continues. -/
def load_admins : FileRead → List Nat × Bool
  | FileRead.missing => ([], true)
  | FileRead.corrupt => ([], true)
  | FileRead.ok ids => (ids, false)

/-- The `start` command handler: adds the caller to the `users` set and
sends the admin menu (the inline keyboard whose single button carries
the callback data "broadcast") exactly when `user_id in ADMIN_IDS`.
Returns the new registry and whether the admin menu was sent. -/
def start (admin_ids : List Nat) (users : Finset Nat) (uid : Nat) :
    Finset Nat × Bool :=
  (insert uid users, decide (uid ∈ admin_ids))

/-- The registry after a sequence of `/start` interactions, one per id
in order. -/
def runStarts (admin_ids : List Nat) (users : Finset Nat)
    (ids : List Nat) : Finset Nat :=
  ids.foldl (fun u i => (start admin_ids u i).1) users

/-- The `button_callback` entry handler: callback data "broadcast"
enters the flow (`TYPING_TEXT`), anything else returns
`ConversationHandler.END`.  The function never consults `ADMIN_IDS`. -/
def button_callback (data : String) : ConvState :=
  if data = "broadcast" then ConvState.typingText else ConvState.idle

/-- The `text_input` handler: stores the message text under
`broadcast_text` and moves to `WAITING_MEDIA`. -/
def text_input (text : String) (ud : UserData) : UserData × ConvState :=
  ({ ud with broadcast_text := some text }, ConvState.waitingMedia)

/-- The `media_choice` handler, keyed on the callback data:
"add_photo" / "add_video" set `media_type` and move to `BROADCAST`
(awaiting the payload); "send_now" runs `broadcast_message` (which
clears `user_data` and ends the conversation); any other data leaves
everything as it is and stays in `WAITING_MEDIA`.  The third component
is the tally when a broadcast ran. -/
def media_choice (snapshot : List Nat) (deliver : Nat → SendKind → Bool)
    (data : String) (ud : UserData) :
    UserData × ConvState × Option Tally :=
  if data = "add_photo" then
    ({ ud with media_type := some MediaType.photo }, ConvState.broadcast, none)
  else if data = "add_video" then
    ({ ud with media_type := some MediaType.video }, ConvState.broadcast, none)
  else if data = "send_now" then
    let r := broadcast_message ud snapshot deliver
    (r.2.1, r.2.2, some r.1)
  else (ud, ConvState.waitingMedia, none)

/-- An inbound Telegram message as far as `receive_media` inspects it:
`update.message.photo` is a (possibly empty) list of photo sizes, of
which the handler takes the last; `update.message.video` is optional. -/
structure Message where
  photo : List String
  video : Option String
deriving DecidableEq, Repr

/-- The `receive_media` handler: a message with a photo stores the last
photo size under `media` and sets `media_type := "photo"`; otherwise a
message with a video stores it and sets `media_type := "video"`; both
move to `WAITING_MEDIA` (the send-now prompt).  A message with neither
replies with the format-error prompt (third component `true`) and
stays in `BROADCAST` with `user_data` untouched. -/
def receive_media (msg : Message) (ud : UserData) :
    UserData × ConvState × Bool :=
  match msg.photo.getLast? with
  | some fid =>
    ({ ud with media := some fid, media_type := some MediaType.photo },
      ConvState.waitingMedia, false)
  | none =>
    match msg.video with
    | some fid =>
      ({ ud with media := some fid, media_type := some MediaType.video },
        ConvState.waitingMedia, false)
    | none => (ud, ConvState.broadcast, true)

/-- The `cancel` fallback handler: acknowledges, clears `user_data`,
returns `ConversationHandler.END`. -/
def cancel : Session := Session.initial

/-- Inbound events routed to the conversation handler, as
`setup_handlers` registers them: a callback query with its data, a
non-command text message (`Filters.text & ~Filters.command`), a media
message, or the `/cancel` command (the only fallback). -/
inductive Event
  | callback (data : String)
  | textMsg (text : String)
  | mediaMsg (msg : Message)
  | cancelCmd
deriving Repr

/-- One step of the `ConversationHandler` configured in
`setup_handlers`, for the session of user `uid`:

* no active conversation (`idle`): only the entry point
  `CallbackQueryHandler(button_callback, pattern="^broadcast$")`
  can fire; nothing else is handled.  Neither the registration nor
  `button_callback` consults `admin_ids` or `uid`;
* `TYPING_TEXT`: `MessageHandler(Filters.text & ~Filters.command,
  text_input)`;
* `WAITING_MEDIA`: `CallbackQueryHandler(media_choice)` (no pattern);
* `BROADCAST`: `MessageHandler(Filters.photo | Filters.video,
  receive_media)` and `CallbackQueryHandler(broadcast_message,
  pattern="^send_now$")`;
* in every active state the fallback `CommandHandler("cancel", cancel)`
  handles `/cancel`.

An event no handler matches leaves the session unchanged.  The second
component is the tally when this step ran a broadcast. -/
def dispatch (admin_ids : List Nat) (snapshot : List Nat)
    (deliver : Nat → SendKind → Bool) (uid : Nat)
    (s : Session) (ev : Event) : Session × Option Tally :=
  match s.state, ev with
  | ConvState.idle, Event.callback data =>
    if data = "broadcast" then (⟨button_callback data, s.ud⟩, none)
    else (s, none)
  | ConvState.idle, _ => (s, none)
  | ConvState.typingText, Event.textMsg t =>
    let r := text_input t s.ud
    (⟨r.2, r.1⟩, none)
  | ConvState.typingText, Event.cancelCmd => (cancel, none)
  | ConvState.typingText, _ => (s, none)
  | ConvState.waitingMedia, Event.callback data =>
    let r := media_choice snapshot deliver data s.ud
    (⟨r.2.1, r.1⟩, r.2.2)
  | ConvState.waitingMedia, Event.cancelCmd => (cancel, none)
  | ConvState.waitingMedia, _ => (s, none)
  | ConvState.broadcast, Event.mediaMsg msg =>
    if msg.photo.isEmpty && msg.video.isNone then (s, none)
    else
      let r := receive_media msg s.ud
      (⟨r.2.1, r.1⟩, none)
  | ConvState.broadcast, Event.callback data =>
    if data = "send_now" then
      let r := broadcast_message s.ud snapshot deliver
      (⟨r.2.2, r.2.1⟩, some r.1)
    else (s, none)
  | ConvState.broadcast, Event.cancelCmd => (cancel, none)
  | ConvState.broadcast, _ => (s, none)

/-- Sessions reachable from the initial (idle, empty) session by any
sequence of dispatched events, under any admin list, registry snapshot
and delivery oracle. -/
inductive Reachable : Session → Prop
  | init : Reachable Session.initial
  | step (admin_ids snapshot : List Nat) (deliver : Nat → SendKind → Bool)
      (uid : Nat) (ev : Event) {s : Session} :
      Reachable s → Reachable (dispatch admin_ids snapshot deliver uid s ev).1

/-- The hardcoded default of
`os.environ.get("TELEGRAM_TOKEN", "7932888925:...")` in `main`. -/
def DEFAULT_TOKEN : String := "7932888925:AAFzrOM2MdGNkq8CsMmNx6kApMtFLN4M4sw"

/-- The possible outcomes of `main` up to the point where the Flask
server starts: an early `return` after one of the two `logger.error`
diagnostics, or a launch with the chosen token and webhook URL. -/
inductive StartupResult
  | abortedNoToken
  | abortedNoWebhook
  | launched (token url : String)
deriving DecidableEq, Repr

/-- The startup logic of `main` over the process environment
(`env key = none` models an unset variable):
`token = os.environ.get("TELEGRAM_TOKEN", DEFAULT_TOKEN)`; `if not
token: return` — only an empty string is falsy here, since an unset
variable received the default.  Then `webhook_url =
os.environ.get("WEBHOOK_URL", os.environ.get("RENDER_EXTERNAL_URL"))`;
`if not webhook_url: return` — `None` or the empty string aborts. -/
def main_startup (env : String → Option String) : StartupResult :=
  let token := (env "TELEGRAM_TOKEN").getD DEFAULT_TOKEN
  if token = "" then StartupResult.abortedNoToken
  else
    let webhook_url :=
      match env "WEBHOOK_URL" with
      | some u => some u
      | none => env "RENDER_EXTERNAL_URL"
    match webhook_url with
    | none => StartupResult.abortedNoWebhook
    | some u =>
      if u = "" then StartupResult.abortedNoWebhook
      else StartupResult.launched token u

/-! ## Helper lemmas -/

/-- A recipient absent from the snapshot has no attempt in the
broadcast's attempt list. -/
theorem attempts_filter_not_mem (ud : UserData) (u : Nat)
    (snapshot : List Nat) (hu : u ∉ snapshot) :
    (broadcastAttempts ud snapshot).filter
      (fun a => a.recipient = u) = [] := by
  induction snapshot with
  | nil => rfl
  | cons v rest ih =>
    simp only [List.mem_cons, not_or] at hu
    simp only [broadcastAttempts, List.map_cons, List.filter_cons] at *
    rw [if_neg (by simpa using Ne.symm hu.1)]
    exact ih hu.2

/-- In a duplicate-free snapshot, a member recipient has exactly one
attempt, namely the call `attemptCall` chooses from the draft. -/
theorem attempts_filter_mem (ud : UserData) (u : Nat)
    (snapshot : List Nat) (hnd : snapshot.Nodup) (hu : u ∈ snapshot) :
    (broadcastAttempts ud snapshot).filter
      (fun a => a.recipient = u) = [⟨u, attemptCall ud⟩] := by
  induction snapshot with
  | nil => cases hu
  | cons v rest ih =>
    rcases List.nodup_cons.mp hnd with ⟨hv, hrest⟩
    rcases List.mem_cons.mp hu with h | h
    · subst h
      simp only [broadcastAttempts, List.map_cons, List.filter_cons]
      rw [if_pos (by simp)]
      have hz := attempts_filter_not_mem ud u rest hv
      simp only [broadcastAttempts] at hz
      rw [hz]
    · simp only [broadcastAttempts, List.map_cons, List.filter_cons]
      rw [if_neg (by
        simp only [decide_eq_true_eq]
        exact fun hvu => hv (hvu ▸ h))]
      exact ih hrest h

/-! ## Claims -/

/-- C1.  For every completed broadcast over a snapshot of the user
registry, the reported tally satisfies
`successful + failed = len(snapshot)`: each recipient of the snapshot
contributes exactly one increment to exactly one of the two counters,
whatever the delivery oracle does. -/
theorem broadcast_tally_total (ud : UserData) (snapshot : List Nat)
    (deliver : Nat → SendKind → Bool) :
    (broadcast_message ud snapshot deliver).1.successful
      + (broadcast_message ud snapshot deliver).1.failed
      = snapshot.length := by
  have h := broadcast_foldl_sum deliver ud snapshot ⟨0, 0⟩
  simpa [broadcast_message, broadcast_tally] using h

/-- C2.  For a duplicate-free snapshot and any recipient `u` in it, the
engine makes exactly one delivery attempt for `u` (no retries); the
counters are exactly the number of succeeding and of failing
recipients over the whole snapshot, so a failing recipient is counted
in `failed` and does not remove any other recipient from the attempts
or the counts; the engine is a total function into `Tally`, so no
per-recipient failure surfaces as an exception. -/
theorem broadcast_one_attempt_isolated (ud : UserData)
    (snapshot : List Nat) (deliver : Nat → SendKind → Bool) (u : Nat)
    (hnd : snapshot.Nodup) (hu : u ∈ snapshot) :
    (broadcastAttempts ud snapshot).filter
        (fun a => a.recipient = u) = [⟨u, attemptCall ud⟩]
      ∧ (broadcast_message ud snapshot deliver).1
        = ⟨(snapshot.filter (fun v => deliver v (attemptCall ud))).length,
           (snapshot.filter (fun v => !deliver v (attemptCall ud))).length⟩
      ∧ (deliver u (attemptCall ud) = false →
          u ∈ snapshot.filter (fun v => !deliver v (attemptCall ud))) := by
  refine ⟨attempts_filter_mem ud u snapshot hnd hu, ?_, ?_⟩
  · have h := broadcast_foldl_filter deliver ud snapshot ⟨0, 0⟩
    simpa [broadcast_message, broadcast_tally] using h
  · intro hf
    simp only [List.mem_filter]
    exact ⟨hu, by simp [hf]⟩

/-- C2 witness: snapshot `[1, 2, 3]` where delivery to `2` fails. -/
theorem broadcast_one_attempt_isolated_witness :
    (broadcastAttempts ⟨some "Hello", none, none⟩ [1, 2, 3]).filter
        (fun a => a.recipient = 2)
        = [⟨2, attemptCall ⟨some "Hello", none, none⟩⟩]
      ∧ (broadcast_message ⟨some "Hello", none, none⟩ [1, 2, 3]
            (fun v _ => decide (v ≠ 2))).1
        = ⟨([1, 2, 3].filter
              (fun v => (fun w _ => decide (w ≠ 2)) v
                (attemptCall ⟨some "Hello", none, none⟩))).length,
           ([1, 2, 3].filter
              (fun v => !(fun w _ => decide (w ≠ 2)) v
                (attemptCall ⟨some "Hello", none, none⟩))).length⟩
      ∧ ((fun v _ => decide (v ≠ 2)) 2
            (attemptCall ⟨some "Hello", none, none⟩) = false →
          2 ∈ [1, 2, 3].filter
            (fun v => !(fun w _ => decide (w ≠ 2)) v
              (attemptCall ⟨some "Hello", none, none⟩))) :=
  broadcast_one_attempt_isolated ⟨some "Hello", none, none⟩ [1, 2, 3]
    (fun v _ => decide (v ≠ 2)) 2 (by decide) (by decide)

/-- C6.  Registration is an idempotent insert: after any sequence of
`/start` interactions the registry's membership is exactly the set of
distinct ids registered together with the initial membership, the
registry only grows, and re-registering an id changes nothing. -/
theorem registry_membership (admin_ids ids : List Nat)
    (users : Finset Nat) (x : Nat) :
    (x ∈ runStarts admin_ids users ids ↔ x ∈ ids ∨ x ∈ users)
      ∧ users ⊆ runStarts admin_ids users ids
      ∧ (start admin_ids (start admin_ids users x).1 x).1
        = (start admin_ids users x).1 := by
  refine ⟨?_, ?_, by simp [start]⟩
  · induction ids generalizing users with
    | nil => simp [runStarts]
    | cons i rest ih =>
      simp only [runStarts, List.foldl_cons, List.mem_cons] at *
      rw [ih]
      simp [start, Finset.mem_insert]
      tauto
  · induction ids generalizing users with
    | nil => simp [runStarts]
    | cons i rest ih =>
      simp only [runStarts, List.foldl_cons] at *
      exact fun y hy =>
        ih (insert i users) (by simp [start, Finset.mem_insert, hy])

/-- C10.  A broadcast invoked with no stored text and no attachment
kind does not fail: the engine defaults the text to the empty string,
attempts a plain-text delivery of `""` to every recipient of the
snapshot, and still produces a tally accounting for the whole
snapshot. -/
theorem broadcast_empty_draft (snapshot : List Nat)
    (deliver : Nat → SendKind → Bool) :
    broadcastAttempts UserData.empty snapshot
        = snapshot.map (fun u => ⟨u, SendKind.sendText ""⟩)
      ∧ (broadcast_message UserData.empty snapshot deliver).1.successful
        + (broadcast_message UserData.empty snapshot deliver).1.failed
        = snapshot.length := by
  constructor
  · simp [broadcastAttempts, attemptCall, UserData.empty, sendCall]
  · have h := broadcast_foldl_sum deliver UserData.empty snapshot ⟨0, 0⟩
    simpa [broadcast_message, broadcast_tally] using h

/-- C3 counterexample.  User 7 is not in the (empty) admin directory,
yet dispatching the broadcast entry callback on 7's idle session
transitions it out of `Idle`: the conversation entry point registered
in `setup_handlers` never consults the admin directory, so the
entry action is not a no-op for non-admins. -/
theorem entry_not_gated_cex :
    (7 : Nat) ∉ ([] : List Nat)
      ∧ (dispatch [] [] (fun _ _ => true) 7 Session.initial
          (Event.callback "broadcast")).1 ≠ Session.initial := by
  constructor
  · simp
  · simp [dispatch, button_callback, Session.initial]

/-- C3 amended.  The admin check happens only at menu presentation:
`/start` sends the admin menu holding the entry button exactly to
identifiers in the Admin Directory; the entry callback itself
transitions `Idle → AwaitingBroadcastText` for every actor, admin or
not, because the handler chain never consults the directory. -/
theorem entry_gated_at_menu_only (admin_ids snapshot : List Nat)
    (deliver : Nat → SendKind → Bool) (uid : Nat) (users : Finset Nat)
    (ud : UserData) :
    ((start admin_ids users uid).2 = true ↔ uid ∈ admin_ids)
      ∧ (dispatch admin_ids snapshot deliver uid ⟨ConvState.idle, ud⟩
          (Event.callback "broadcast")).1.state = ConvState.typingText := by
  constructor
  · simp [start]
  · simp [dispatch, button_callback]

/-- C4 counterexample.  A session in `AwaitingMediaPayload` with
`attachmentKind = photo` that receives a video does not stay put:
the video is accepted, `media_type` is overwritten to `video`, the
payload is stored, and the session moves to `WAITING_MEDIA`. -/
theorem wrong_media_cex :
    (dispatch [] [] (fun _ _ => true) 1
        ⟨ConvState.broadcast, ⟨some "Promo", some MediaType.photo, none⟩⟩
        (Event.mediaMsg ⟨[], some "vid1"⟩)).1.state ≠ ConvState.broadcast
      ∧ (dispatch [] [] (fun _ _ => true) 1
          ⟨ConvState.broadcast, ⟨some "Promo", some MediaType.photo, none⟩⟩
          (Event.mediaMsg ⟨[], some "vid1"⟩)).1.ud.media_type
        ≠ some MediaType.photo := by
  constructor <;> simp [dispatch, receive_media]

/-- C4 amended.  A media payload of the other kind is accepted, not
rejected: receiving a video while `attachmentKind = photo` stores the
video and overwrites `attachmentKind` to `video`, moving the session
to the send prompt (`WAITING_MEDIA`).  The format-error branch of
`receive_media` fires only for a message carrying neither photo nor
video, and then leaves the Draft and the state unchanged — and the
`Filters.photo | Filters.video` dispatch filter keeps such a message
from reaching the handler at all, so at dispatch level the session is
also unchanged. -/
theorem wrong_media_accepted (ud : UserData) (fid : String)
    (admin_ids snapshot : List Nat) (deliver : Nat → SendKind → Bool)
    (uid : Nat) :
    receive_media ⟨[], some fid⟩ ud
        = ({ ud with
              media := some fid,
              media_type := some MediaType.video },
           ConvState.waitingMedia, false)
      ∧ receive_media ⟨[], none⟩ ud = (ud, ConvState.broadcast, true)
      ∧ (dispatch admin_ids snapshot deliver uid
          ⟨ConvState.broadcast, ud⟩ (Event.mediaMsg ⟨[], none⟩)).1
        = ⟨ConvState.broadcast, ud⟩ := by
  refine ⟨rfl, rfl, by simp [dispatch]⟩

/-- An environment with no `TELEGRAM_TOKEN` but a webhook URL set. -/
def envTokenAbsent : String → Option String :=
  fun k => if k = "WEBHOOK_URL" then some "https://example.org" else none

/-- C5 counterexample.  With `TELEGRAM_TOKEN` absent from the
environment, startup does not abort: `os.environ.get` hands `main` the
hardcoded default token and launch proceeds. -/
theorem missing_token_cex :
    envTokenAbsent "TELEGRAM_TOKEN" = none
      ∧ main_startup envTokenAbsent
        = StartupResult.launched DEFAULT_TOKEN "https://example.org" := by
  constructor
  · simp [envTokenAbsent]
  · simp [main_startup, envTokenAbsent, DEFAULT_TOKEN]

/-- C5 amended.  An absent `TELEGRAM_TOKEN` falls back to a hardcoded
default token, so the missing-token abort can never fire for an unset
variable (only an explicitly empty one); the missing-callback-URL
abort is real: with both `WEBHOOK_URL` and `RENDER_EXTERNAL_URL`
unset, launch aborts with the logged webhook diagnostic. -/
theorem startup_abort_conditions (env : String → Option String)
    (htok : env "TELEGRAM_TOKEN" = none) :
    main_startup env ≠ StartupResult.abortedNoToken
      ∧ (env "WEBHOOK_URL" = none → env "RENDER_EXTERNAL_URL" = none →
          main_startup env = StartupResult.abortedNoWebhook) := by
  have hde : (DEFAULT_TOKEN = "") = False := by simp [DEFAULT_TOKEN]
  constructor
  · unfold main_startup
    rw [htok]
    simp only [Option.getD_none, hde, if_false]
    split
    · simp
    · split <;> simp
  · intro h1 h2
    unfold main_startup
    rw [htok, h1, h2]
    simp [hde]

/-- C5 witness: the wholly empty environment aborts for the webhook,
never for the token. -/
theorem startup_abort_conditions_witness :
    main_startup (fun _ => none) ≠ StartupResult.abortedNoToken
      ∧ ((fun _ => (none : Option String)) "WEBHOOK_URL" = none →
          (fun _ => (none : Option String)) "RENDER_EXTERNAL_URL" = none →
          main_startup (fun _ => none)
            = StartupResult.abortedNoWebhook) :=
  startup_abort_conditions (fun _ => none) rfl

/-- C7.  The `/cancel` fallback in any active (non-`Idle`) state
returns the session to `Idle` with a cleared Draft and produces no
broadcast; with no active conversation `/cancel` matches no handler
and is a no-op; hence cancelling is idempotent. -/
theorem cancel_resets (admin_ids snapshot : List Nat)
    (deliver : Nat → SendKind → Bool) (uid : Nat) (s : Session)
    (h : s.state ≠ ConvState.idle) :
    dispatch admin_ids snapshot deliver uid s Event.cancelCmd
        = (Session.initial, none)
      ∧ dispatch admin_ids snapshot deliver uid ⟨ConvState.idle, s.ud⟩
          Event.cancelCmd = (⟨ConvState.idle, s.ud⟩, none)
      ∧ (dispatch admin_ids snapshot deliver uid
          (dispatch admin_ids snapshot deliver uid s Event.cancelCmd).1
          Event.cancelCmd).1
        = (dispatch admin_ids snapshot deliver uid s Event.cancelCmd).1 := by
  obtain ⟨st, ud⟩ := s
  cases st <;> simp_all [dispatch, cancel, Session.initial]

/-- C7 witness: cancelling a mid-flow session with stored text. -/
theorem cancel_resets_witness :
    dispatch [] [] (fun _ _ => true) 0
        ⟨ConvState.waitingMedia, ⟨some "x", none, none⟩⟩ Event.cancelCmd
        = (Session.initial, none)
      ∧ dispatch [] [] (fun _ _ => true) 0
          ⟨ConvState.idle,
            (⟨ConvState.waitingMedia, ⟨some "x", none, none⟩⟩ : Session).ud⟩
          Event.cancelCmd
        = (⟨ConvState.idle,
            (⟨ConvState.waitingMedia, ⟨some "x", none, none⟩⟩ : Session).ud⟩,
           none)
      ∧ (dispatch [] [] (fun _ _ => true) 0
          (dispatch [] [] (fun _ _ => true) 0
            ⟨ConvState.waitingMedia, ⟨some "x", none, none⟩⟩
            Event.cancelCmd).1 Event.cancelCmd).1
        = (dispatch [] [] (fun _ _ => true) 0
            ⟨ConvState.waitingMedia, ⟨some "x", none, none⟩⟩
            Event.cancelCmd).1 :=
  cancel_resets [] [] (fun _ _ => true) 0
    ⟨ConvState.waitingMedia, ⟨some "x", none, none⟩⟩ (by decide)

/-- C8 counterexample.  With the admin storage missing, `load_admins`
does yield the empty list — but an entry attempt by an arbitrary user
is then not a no-op: the entry callback still transitions the session
out of `Idle`, because the handler chain never consults the (empty)
admin list. -/
theorem admins_missing_cex :
    load_admins FileRead.missing = ([], true)
      ∧ (dispatch (load_admins FileRead.missing).1 []
          (fun _ _ => true) 3 Session.initial
          (Event.callback "broadcast")).1 ≠ Session.initial := by
  constructor
  · rfl
  · simp [dispatch, button_callback, Session.initial, load_admins]

/-- C8 amended.  A missing or corrupt admin store is recreated as an
empty list and `load_admins` returns normally with the empty admin
set, so startup continues; with the empty admin set no user is ever
shown the admin menu by `/start`.  (A raw broadcast-entry callback,
however, still transitions state for any user: the entry handler does
not consult the admin set.) -/
theorem admins_missing_empty (uid : Nat) (users : Finset Nat) :
    load_admins FileRead.missing = ([], true)
      ∧ load_admins FileRead.corrupt = ([], true)
      ∧ (start [] users uid).2 = false := by
  refine ⟨rfl, rfl, by simp [start]⟩

/-- The part of the Draft invariant the code actually maintains:
a stored attachment reference always comes with an attachment kind,
and outside the payload-waiting state (`BROADCAST`) a stored kind
always comes with a reference. -/
def DraftInv (s : Session) : Prop :=
  (s.ud.media.isSome → s.ud.media_type.isSome)
    ∧ (s.ud.media_type.isSome → s.state ≠ ConvState.broadcast →
        s.ud.media.isSome)

/-- Every dispatch step preserves `DraftInv`. -/
theorem DraftInv_step (admin_ids snapshot : List Nat)
    (deliver : Nat → SendKind → Bool) (uid : Nat) (s : Session)
    (ev : Event) (h : DraftInv s) :
    DraftInv (dispatch admin_ids snapshot deliver uid s ev).1 := by
  obtain ⟨st, ud⟩ := s
  obtain ⟨hm, hk⟩ := h
  cases st with
  | idle =>
    cases ev with
    | callback data =>
      by_cases hb : data = "broadcast" <;>
        simp_all [dispatch, button_callback, DraftInv]
    | textMsg t => simp_all [dispatch, DraftInv]
    | mediaMsg m => simp_all [dispatch, DraftInv]
    | cancelCmd => simp_all [dispatch, DraftInv]
  | typingText =>
    cases ev with
    | callback data => simp_all [dispatch, DraftInv]
    | textMsg t => simp_all [dispatch, text_input, DraftInv]
    | mediaMsg m => simp_all [dispatch, DraftInv]
    | cancelCmd =>
      simp_all [dispatch, cancel, Session.initial, UserData.empty, DraftInv]
  | waitingMedia =>
    cases ev with
    | callback data =>
      by_cases h1 : data = "add_photo"
      · simp_all [dispatch, media_choice, DraftInv]
      · by_cases h2 : data = "add_video"
        · simp_all [dispatch, media_choice, DraftInv]
        · by_cases h3 : data = "send_now" <;>
            simp_all [dispatch, media_choice, broadcast_message,
              UserData.empty, DraftInv]
    | textMsg t => simp_all [dispatch, DraftInv]
    | mediaMsg m => simp_all [dispatch, DraftInv]
    | cancelCmd =>
      simp_all [dispatch, cancel, Session.initial, UserData.empty, DraftInv]
  | broadcast =>
    cases ev with
    | callback data =>
      by_cases h1 : data = "send_now" <;>
        simp_all [dispatch, broadcast_message, UserData.empty, DraftInv]
    | textMsg t => simp_all [dispatch, DraftInv]
    | mediaMsg m =>
      by_cases hf : (m.photo.isEmpty && m.video.isNone) = true
      · simp_all [dispatch, DraftInv]
      · rcases hp : m.photo.getLast? with _ | fid
        · rcases hv : m.video with _ | fid2 <;>
            simp_all [dispatch, receive_media, DraftInv]
        · have hne : m.photo ≠ [] := by
            intro h0
            rw [h0] at hp
            simp at hp
          simp_all [dispatch, receive_media, DraftInv]
    | cancelCmd =>
      simp_all [dispatch, cancel, Session.initial, UserData.empty, DraftInv]

/-- C9 counterexample.  The session reached by entry → text "Promo" →
choice "add photo" has `attachmentKind = photo` but no
`attachmentRef`, so in this reachable state the claimed equivalence
"attachmentRef is set iff attachmentKind is photo or video" fails. -/
theorem draft_iff_cex :
    Reachable ⟨ConvState.broadcast,
        ⟨some "Promo", some MediaType.photo, none⟩⟩
      ∧ ¬((⟨ConvState.broadcast,
            ⟨some "Promo", some MediaType.photo, none⟩⟩ :
              Session).ud.media.isSome
          ↔ (⟨ConvState.broadcast,
              ⟨some "Promo", some MediaType.photo, none⟩⟩ :
                Session).ud.media_type.isSome) := by
  constructor
  · have h0 : Reachable Session.initial := Reachable.init
    have h1 := Reachable.step [] [] (fun _ _ => true) 0
      (Event.callback "broadcast") h0
    have h2 := Reachable.step [] [] (fun _ _ => true) 0
      (Event.textMsg "Promo") h1
    have h3 := Reachable.step [] [] (fun _ _ => true) 0
      (Event.callback "add_photo") h2
    have e1 : (dispatch [] [] (fun _ _ => true) 0 Session.initial
        (Event.callback "broadcast")).1
        = ⟨ConvState.typingText, UserData.empty⟩ := by
      simp [dispatch, button_callback, Session.initial]
    rw [e1] at h2 h3
    have e2 : (dispatch [] [] (fun _ _ => true) 0
        ⟨ConvState.typingText, UserData.empty⟩
        (Event.textMsg "Promo")).1
        = ⟨ConvState.waitingMedia, ⟨some "Promo", none, none⟩⟩ := by
      simp [dispatch, text_input, UserData.empty]
    rw [e2] at h3
    have e3 : (dispatch [] [] (fun _ _ => true) 0
        ⟨ConvState.waitingMedia, ⟨some "Promo", none, none⟩⟩
        (Event.callback "add_photo")).1
        = ⟨ConvState.broadcast,
            ⟨some "Promo", some MediaType.photo, none⟩⟩ := by
      simp [dispatch, media_choice]
    rw [e3] at h3
    exact h3
  · simp

/-- C9 amended.  In every reachable session, a stored attachmentRef
implies attachmentKind is photo or video; the converse implication
holds in every state except `AwaitingMediaPayload` (`BROADCAST`),
where the kind is chosen before the payload has arrived, so there the
kind may be set while the reference is still absent. -/
theorem draft_inv_reachable (s : Session) (h : Reachable s) :
    (s.ud.media.isSome → s.ud.media_type.isSome)
      ∧ (s.ud.media_type.isSome → s.state ≠ ConvState.broadcast →
          s.ud.media.isSome) := by
  induction h with
  | init => simp [Session.initial, UserData.empty]
  | step admin_ids snapshot deliver uid ev hr ih =>
    exact DraftInv_step admin_ids snapshot deliver uid _ ev ih

/-- C9 witness: the invariant at the initial session. -/
theorem draft_inv_reachable_witness :
    (Session.initial.ud.media.isSome →
        Session.initial.ud.media_type.isSome)
      ∧ (Session.initial.ud.media_type.isSome →
          Session.initial.state ≠ ConvState.broadcast →
          Session.initial.ud.media.isSome) :=
  draft_inv_reachable Session.initial Reachable.init

end Bot
